import Mathlib

/-!
Shallow embedding of `src/i3/mixer.py` (a py3status volume-control widget).

The module talks to external mixer tools (`pactl` and friends) by spawning
processes and parsing their text output.  Here the external world is a
parameter: regex search results, installed-command availability and the
enumerated sink list are inputs, and the commands the code would issue are
returned as structured values instead of being executed.  Machine behaviour
that Python realises with exceptions is modelled with explicit result types,
and the potentially non-terminating skip loop in `Py3status.on_click` is
modelled with explicit fuel: a `none`/`diverge` result means the loop has not
exited within the given number of iterations, for any fuel.
-/

namespace Mixer

/-! ### Constants (module-level strings of mixer.py) -/

/-- `STRING_ERROR = "invalid command \x60%s\x60"`, applied to the command. -/
def STRING_ERROR_MSG (cmd : String) : String :=
  "invalid command \x60" ++ cmd ++ "\x60"

/-- `COMMAND_NOT_INSTALLED = "command \x60%s\x60 not installed"`, applied. -/
def COMMAND_NOT_INSTALLED_MSG (cmd : String) : String :=
  "command \x60" ++ cmd ++ "\x60 not installed"

/-- `STRING_NOT_AVAILABLE = "no available binary"`. -/
def STRING_NOT_AVAILABLE : String := "no available binary"

/-! ### Pactl.get_volume and Pactl.volume_up -/

/--
`Pactl.get_volume`: `re_volume.search(output)` either fails (`None`) or
yields two groups, the mute word (`\w{2,3}`) and the percentage digits
(`\d{1,3}`, modelled already parsed as a `Nat`).  The search outcome is the
input here; the regex engine itself is Python library code.  On `None` the
attribute access `.groups()` raises `AttributeError`, which the source
catches, returning `(None, None)`; otherwise `muted = muted == "yes"` and
the pair `(perc, muted)` is returned.
-/
def get_volume (searchResult : Option (String × Nat)) : Option Nat × Option Bool :=
  match searchResult with
  | none => (none, none)
  | some (mutedWord, perc) => (some perc, some (mutedWord == "yes"))

/-- The volume-change argument `Pactl.volume_up`/`volume_down` hand to
`pactl -- set-<type>-volume <device> <change>`: either an absolute
`"{n}%"` or a relative `"+{d}%"`. -/
inductive VolumeChange where
  | absolute (n : Int)
  | relative (d : Int)
deriving DecidableEq, Repr

/-- Outcome of `Pactl.volume_up`: either a `TypeError` escapes from
`int(perc)` when the percentage is `None`, or exactly one `pactl`
set-volume command is issued. -/
inductive VolumeUpResult where
  | raised
  | cmd (change : VolumeChange)
deriving DecidableEq, Repr

/--
`Pactl.volume_up(delta)`: reads `perc, muted = self.get_volume()`; computes
`int(perc)` — raising if `perc` is `None` — and issues an absolute set to
`max_volume` when `int(perc) + delta >= self.max_volume`, otherwise a
relative `+delta%` change.
-/
def volume_up (searchResult : Option (String × Nat)) (delta maxVolume : Int) :
    VolumeUpResult :=
  match (get_volume searchResult).fst with
  | none => .raised
  | some perc =>
    if (perc : Int) + delta ≥ maxVolume then .cmd (.absolute maxVolume)
    else .cmd (.relative delta)

/-! ### Py3status.volume_status (the formatter)

Python evaluates `int(perc) / 100 * (len(blocks) - 1)` in IEEE-754 binary64
("double") arithmetic, so the formatter's glyph index depends on float
rounding.  The next few definitions model binary64 values exactly, as
dyadic rationals `m · 2^s` with an integer mantissa `m` of at most 53 bits,
using only integer arithmetic: each operation produces the correctly
rounded (round-to-nearest, ties-to-even) result of the exact rational
value, which is IEEE-754 semantics for division and multiplication.  The
exponent range is left unbounded — faithful wherever no overflow or
underflow occurs, which covers every value reachable here (`0` or between
`1/100` and `999 · (len - 1)`, far inside the normal binary64 range for
any physically possible blocks string). -/

/-- Number of binary digits of `n` (`0` for `0`), by structural recursion
on a fuel argument; `bitlen n n` is exact since `n` bounds its own bit
count. -/
def bitlen : Nat → Nat → Nat
  | 0, _ => 0
  | fuel + 1, n => if n = 0 then 0 else bitlen fuel (n / 2) + 1

/-- Round the rational `a / b` (with `b > 0`) to the nearest integer,
ties to even — the IEEE-754 default rounding attitude.  `Int.ediv` and
`Int.emod` give floor division with remainder `0 ≤ r < b`. -/
def roundRatTiesEven (a b : ℤ) : ℤ :=
  let q := a.ediv b
  let r := a.emod b
  if 2 * r < b then q
  else if b < 2 * r then q + 1
  else if q.emod 2 = 0 then q else q + 1

/-- For positive `n / d`, the unique `e` with `2^e ≤ n/d < 2^(e+1)`
(the binary exponent of the value). -/
def floorLog2 (n d : ℕ) : ℤ :=
  let a := bitlen n n
  let b := bitlen d d
  if d * 2 ^ a ≤ n * 2 ^ b then (a : ℤ) - b else (a : ℤ) - b - 1

/-- Correctly rounded binary64 representation `(m, s)` (value `m · 2^s`,
`2^52 ≤ m ≤ 2^53`) of the positive rational `n / d`: scale onto the 53-bit
significand grid and round to nearest, ties to even. -/
def roundPosRat (n d : ℕ) : ℤ × ℤ :=
  let s := floorLog2 n d - 52
  if 0 ≤ s then (roundRatTiesEven (n : ℤ) ((d : ℤ) * 2 ^ s.toNat), s)
  else (roundRatTiesEven ((n : ℤ) * 2 ^ (-s).toNat) (d : ℤ), s)

/-- Renormalize a non-negative dyadic `m · 2^s` whose mantissa may exceed
53 bits (e.g. an exact product of two doubles) back to a 53-bit mantissa,
rounding to nearest, ties to even. -/
def normPosDyadic (m : ℤ) (s : ℤ) : ℤ × ℤ :=
  let a := bitlen m.toNat m.toNat
  if a ≤ 53 then (m, s)
  else (roundRatTiesEven m ((2 : ℤ) ^ (a - 53)), s + ((a - 53 : ℕ) : ℤ))

/-- Python `float(n)` for a non-negative int `n`: exact below `2^53`,
rounded to nearest (ties even) above. -/
def natToDouble (n : ℕ) : ℤ × ℤ := normPosDyadic (n : ℤ) 0

/-- Python `p / 100` for an int `p ≥ 0`: true division produces the
binary64 nearest to the exact rational `p/100`. -/
def divDouble100 (p : ℕ) : ℤ × ℤ := if p = 0 then (0, 0) else roundPosRat p 100

/-- Binary64 multiplication of non-negative doubles: the exact product of
the dyadic values, renormalized to 53 bits with round-to-nearest-even. -/
def mulDouble (x y : ℤ × ℤ) : ℤ × ℤ := normPosDyadic (x.1 * y.1) (x.2 + y.2)

/-- `math.ceil` of the dyadic value `m · 2^s`, exactly (Python returns an
exact int here). -/
def ceilDyadic (m s : ℤ) : ℤ :=
  if 0 ≤ s then m * 2 ^ s.toNat
  else (m + 2 ^ (-s).toNat - 1).ediv ((2 : ℤ) ^ (-s).toNat)

/--
The glyph index computed at mixer.py lines 335-340:
`min(len(blocks) - 1, int(math.ceil(int(perc) / 100 * (len(blocks) - 1))))`,
with the float subexpression `int(perc) / 100 * (len(blocks) - 1)` evaluated
in binary64 as Python does: round `perc/100` to a double, convert
`len(blocks) - 1` to a double, and round their product.  (`L - 1` is
natural subtraction: for `L = 0` the program raises `IndexError` on the
empty `blocks` string anyway, and every claim assumes `L ≥ 1`.)
-/
def glyph_index (perc L : Nat) : Nat :=
  let x := divDouble100 perc
  let y := mulDouble x (natToDouble (L - 1))
  min (L - 1) (Int.toNat (ceilDyadic y.1 y.2))

/-- The glyph-index formula as the spec words it — EXACT arithmetic
`min (L-1) ⌈perc/100 · (L-1)⌉` over ℚ — for comparison with the program's
double-precision computation `glyph_index`. -/
def glyph_index_spec (perc L : Nat) : Nat :=
  min (L - 1) (Int.toNat ⌈(perc : ℚ) / 100 * ((L : ℚ) - 1)⌉)

/-- The data `Py3status.volume_status` assembles: the chosen icon (absent
when unknown or muted), the displayed percentage text, the color, and which
format template is used. -/
structure VolumeDisplay where
  icon : Option Char
  percentage : String
  color : Option String
  fmt : String
deriving DecidableEq, Repr

/--
`Py3status.volume_status` (lines 321-351), the pure part: from
`(perc, muted)` as returned by the backend, compute icon, percentage text,
color and template.  `if perc is None: perc = "?"` (icon and color stay
`None`); `elif muted:` (Python truthiness: only `True` passes) selects the
muted color and template; otherwise `color = "#FFFFFF"` and the icon is
`blocks[glyph_index]`.
-/
def volume_status (blocks : List Char) (format format_muted color_muted : String)
    (perc : Option Nat) (muted : Option Bool) : VolumeDisplay :=
  match perc with
  | none => { icon := none, percentage := "?", color := none, fmt := format }
  | some p =>
    if muted = some true then
      { icon := none, percentage := toString p, color := some color_muted,
        fmt := format_muted }
    else
      { icon := some (blocks.getD (glyph_index p blocks.length) ' '),
        percentage := toString p, color := some "#FFFFFF", fmt := format }

/-! ### Py3status.post_config_hook (backend selection) -/

/-- The supported backend names (`["amixer", "pamixer", "pactl"]`). -/
def supported_commands : List String := ["amixer", "pamixer", "pactl"]

/-- The ordered candidate list tried when no override is configured:
`["pamixer", "pactl", "amixer"]`, reduced to `["amixer"]` when `pulseaudio`
is not installed. -/
def candidate_commands (avail : String → Bool) : List String :=
  if avail "pulseaudio" then ["pamixer", "pactl", "amixer"] else ["amixer"]

/-- Outcome of backend selection: a chosen command, or a fatal
configuration error (`raise Exception(...)` in the source). -/
inductive BackendResult where
  | ok (cmd : String)
  | configError (msg : String)
deriving DecidableEq, Repr

/--
`Py3status.post_config_hook` (lines 298-310), selection logic only.
`avail` is `py3.check_commands` on a single name; `command = none` models a
falsy (absent) override.  Without an override, `py3.check_commands(list)`
returns the first installed candidate (`List.find? avail`), and a final
`if not self.command: raise` turns an empty result into an error.  With an
override, an unsupported name raises `STRING_ERROR` and an uninstalled one
raises `COMMAND_NOT_INSTALLED`.
-/
def post_config_hook (avail : String → Bool) (command : Option String) :
    BackendResult :=
  match command with
  | none =>
    match (candidate_commands avail).find? avail with
    | some c => .ok c
    | none => .configError STRING_NOT_AVAILABLE
  | some cmd =>
    if cmd ∈ supported_commands then
      if avail cmd then .ok cmd else .configError (COMMAND_NOT_INSTALLED_MSG cmd)
    else .configError (STRING_ERROR_MSG cmd)

/-! ### Py3status.on_click -/

/-- One entry of `__get_sink_list()`: second token of a `pactl list sinks
short` line as `name`, last token as `state`. -/
structure Sink where
  name : String
  state : String
deriving DecidableEq, Repr

/-- `Py3status.__get_sink_index` (lines 401-405): index of the first sink
whose name equals `sink_name`; `none` models the `ValueError` raised when
no sink matches. -/
def get_sink_index (sink_list : List Sink) (sink_name : String) : Option Nat :=
  sink_list.findIdx? (fun s => s.name == sink_name)

/-- `delta = -1 if self.scroll_up else 1` (line 374): the condition is the
truthiness of the integer attribute `self.scroll_up` itself (default `4`);
the event's `button` is not consulted. -/
def compute_delta (scroll_up button : Nat) : Int :=
  if scroll_up ≠ 0 then -1 else 1

/-- Python `%` on an integer and a positive length: `Int.emod`, which is
non-negative, cast back to an index. -/
def pyMod (a : Int) (n : Nat) : Nat := (a.emod n).toNat

/--
The `while sink_list[ind]['state'] == 'SUSPENDED':` loop (lines 381-382),
with explicit fuel.  `none` means the loop has not exited within `fuel`
iterations; the source itself has no bound and simply loops.
-/
def skip_suspended (sink_list : List Sink) (delta : Int) :
    Nat → Nat → Option Nat
  | 0, _ => none
  | fuel + 1, ind =>
    if (sink_list.getD ind ⟨"", ""⟩).state = "SUSPENDED" then
      skip_suspended sink_list delta fuel (pyMod ((ind : Int) + delta) sink_list.length)
    else
      some ind

/-- Outcome of the scroll branch of `Py3status.on_click`: a silent return
(`ValueError` from `__get_sink_index` caught), divergence of the skip loop
(never observed to exit within the fuel), or a committed selection — the
`storage_set('sink_name', ...)` value together with the index handed to
`swap_device`. -/
inductive ScrollResult where
  | noop
  | diverge
  | swap (sink_name : String) (ind : Nat)
deriving DecidableEq, Repr

/--
The scroll branch of `Py3status.on_click` (lines 367-385): look up the
stored name in the sink list (silent no-op on failure), step by `delta`
modulo the list length, skip `SUSPENDED` entries, then store the landed
sink's name and swap to its index.
-/
def on_click_scroll (fuel : Nat) (sink_list : List Sink) (sink_name : String)
    (delta : Int) : ScrollResult :=
  match get_sink_index sink_list sink_name with
  | none => .noop
  | some i =>
    let ind := pyMod ((i : Int) + delta) sink_list.length
    match skip_suspended sink_list delta fuel ind with
    | none => .diverge
    | some ind2 => .swap (sink_list.getD ind2 ⟨"", ""⟩).name ind2

/-- The widget's process-wide storage slots touched by `on_click`:
`edit_mode` and `sink_name`. -/
structure EditModeState where
  edit_mode : Bool
  sink_name : Option String
deriving DecidableEq, Repr

/--
The left-button branch of `Py3status.on_click` (lines 356-360): toggle
`edit_mode` and store the freshly queried default device name
(`get_default_device(True)`, which may itself be `None`) into `sink_name` —
on every left click, entering or leaving edit mode.
-/
def on_click_left (default_device : Option String) (s : EditModeState) :
    EditModeState :=
  { edit_mode := !s.edit_mode, sink_name := default_device }

/-! ### Helper lemmas -/

/-- The skip loop on the one-element all-`SUSPENDED` sink list never exits,
whatever the fuel: every iteration lands back on index 0. -/
theorem skip_suspended_all_one (fuel : Nat) :
    skip_suspended [⟨"A", "SUSPENDED"⟩] (-1) fuel 0 = none := by
  induction fuel with
  | zero => rfl
  | succ n ih => exact ih

/-- `__get_sink_index` yields `none` (raises `ValueError`) exactly when no
sink in the list carries the stored name. -/
theorem get_sink_index_eq_none (sink_list : List Sink) (sink_name : String)
    (h : ∀ s ∈ sink_list, s.name ≠ sink_name) :
    get_sink_index sink_list sink_name = none := by
  unfold get_sink_index
  rw [List.findIdx?_eq_none_iff]
  intro s hs
  simpa using h s hs

/-- Exact-arithmetic ceiling of `N / 100` as Euclidean natural division. -/
theorem ceil_cast_div_hundred (N : ℕ) :
    ⌈(N : ℚ) / 100⌉ = (((N + 99) / 100 : ℕ) : ℤ) := by
  have h1 := Nat.div_add_mod (N + 99) 100
  have h2 : (N + 99) % 100 < 100 := Nat.mod_lt _ (by norm_num)
  set q := (N + 99) / 100 with hq
  have hle : N ≤ 100 * q := by omega
  have hlt : 100 * q < N + 100 := by omega
  rw [Int.ceil_eq_iff]
  constructor
  · rw [lt_div_iff₀ (by norm_num : (0 : ℚ) < 100)]
    have hlt' : ((100 * q : ℕ) : ℚ) < ((N + 100 : ℕ) : ℚ) := by exact_mod_cast hlt
    push_cast at hlt' ⊢
    linarith
  · rw [div_le_iff₀ (by norm_num : (0 : ℚ) < 100)]
    have hle' : ((N : ℕ) : ℚ) ≤ ((100 * q : ℕ) : ℚ) := by exact_mod_cast hle
    push_cast at hle' ⊢
    linarith

/-- The spec's exact-arithmetic formula `min (L-1) ⌈p/100 · (L-1)⌉`,
written over ℚ, equals the natural number
`min (L - 1) ((p * (L - 1) + 99) / 100)`. -/
theorem glyph_index_spec_eq (p L : Nat) (h : 1 ≤ L) :
    glyph_index_spec p L = min (L - 1) ((p * (L - 1) + 99) / 100) := by
  obtain ⟨K, rfl⟩ : ∃ K, L = K + 1 := ⟨L - 1, (Nat.succ_pred_eq_of_pos h).symm⟩
  unfold glyph_index_spec
  have h1 : (p : ℚ) / 100 * (((K + 1 : ℕ) : ℚ) - 1) = ((p * K : ℕ) : ℚ) / 100 := by
    push_cast
    ring
  rw [h1, ceil_cast_div_hundred]
  simp only [Int.toNat_ofNat, Nat.add_sub_cancel]

/-! ### The claims -/

/--
Claim C1 (code bug): the spec requires that with every non-current device
`SUSPENDED` the scroll action terminate as a no-op with no swap; the code's
`while` loop has no bound.  First conjunct: with the single sink list
`[A(SUSPENDED)]` and stored name `A`, the loop exits for no fuel — it runs
forever.  Second conjunct: with `[A(RUNNING), B(SUSPENDED)]` and current
`A`, the loop walks back to `A` itself and a `swap_device` command IS
issued, contradicting the required no-op.
-/
theorem claim_C1 :
    (∀ fuel, on_click_scroll fuel [⟨"A", "SUSPENDED"⟩] "A" (-1) = .diverge) ∧
    on_click_scroll 2 [⟨"A", "RUNNING"⟩, ⟨"B", "SUSPENDED"⟩] "A" 1 = .swap "A" 0 := by
  constructor
  · intro fuel
    have h : on_click_scroll fuel [⟨"A", "SUSPENDED"⟩] "A" (-1)
        = (match skip_suspended [⟨"A", "SUSPENDED"⟩] (-1) fuel 0 with
           | none => ScrollResult.diverge
           | some ind2 =>
             ScrollResult.swap
               (([⟨"A", "SUSPENDED"⟩] : List Sink).getD ind2 ⟨"", ""⟩).name ind2) := rfl
    rw [h, skip_suspended_all_one fuel]
  · decide

/--
Claim C2 (code bug): the spec requires step `-1` for scroll-up and `+1` for
scroll-down; the code computes `delta = -1 if self.scroll_up else 1`,
testing the truthiness of the constant attribute `scroll_up = 4` instead of
comparing it with the event's button, so the step is `-1` for every button —
including scroll-down (button 5).  The landing example of the claim still
reaches `C` on `[A(RUNNING), B(SUSPENDED), C(RUNNING)]` from `A`, but by
stepping directly to index 2 with `-1`, not by skipping `B` with `+1`.
-/
theorem claim_C2 :
    compute_delta 4 5 = -1 ∧ (∀ button, compute_delta 4 button = -1) ∧
    on_click_scroll 3 [⟨"A", "RUNNING"⟩, ⟨"B", "SUSPENDED"⟩, ⟨"C", "RUNNING"⟩]
      "A" (compute_delta 4 5) = .swap "C" 2 :=
  ⟨rfl, fun _ => rfl, by decide⟩

/--
Claim C3 (code bug): the spec requires the color of a known, non-muted
percentage to be chosen from the ascending threshold list (e.g. `35 ↦
"degraded"`); the code at mixer.py line 334 assigns the constant
`"#FFFFFF"` and never consults `thresholds`, contradicting the module's own
docstring (its `thresholds` parameter and rainbow example).
-/
theorem claim_C3 (blocks : List Char) (format format_muted color_muted : String) :
    (volume_status blocks format format_muted color_muted (some 35) (some false)).color
      = some "#FFFFFF" := rfl

/--
Claim C4: `volume_up` issues an absolute set to exactly `max_volume` when
`perc + delta >= max_volume`, and a relative `+delta%` increase otherwise.
-/
theorem claim_C4 (word : String) (perc : Nat) (delta maxVolume : Int) :
    ((perc : Int) + delta ≥ maxVolume →
      volume_up (some (word, perc)) delta maxVolume = .cmd (.absolute maxVolume)) ∧
    ((perc : Int) + delta < maxVolume →
      volume_up (some (word, perc)) delta maxVolume = .cmd (.relative delta)) := by
  constructor
  · intro h
    simp [volume_up, get_volume, h]
  · intro h
    simp [volume_up, get_volume, not_le.mpr h]

/-- Witness for C4 at the spec's example: `perc = 98`, `delta = 5`,
`max_volume = 100` issues an absolute set to `100%`, not `103%`. -/
theorem claim_C4_witness :
    ((98 : Nat) : Int) + 5 ≥ 100 ∧
    volume_up (some ("no", 98)) 5 100 = .cmd (.absolute 100) :=
  ⟨by decide, (claim_C4 "no" 98 5 100).1 (by decide)⟩

/--
Claim C5: when the volume pattern finds no match, `get_volume` returns
unknown (`none`) for both percentage and mute flag without raising, and the
formatter then renders the literal `?` for the percentage with no glyph,
no color, and the normal template — also without raising (totality of
`volume_status`).
-/
theorem claim_C5 (blocks : List Char) (format format_muted color_muted : String) :
    get_volume none = (none, none) ∧
    volume_status blocks format format_muted color_muted
        (get_volume none).1 (get_volume none).2
      = { icon := none, percentage := "?", color := none, fmt := format } :=
  ⟨rfl, rfl⟩

/--
Claim C6 counterexample: the claimed exact formula is false of the
program's double-precision computation.  At `p = 28` with a 26-glyph ramp,
Python evaluates `28/100*25` to the double `7.000000000000001` (the
rounding of `28/100` lands slightly above `0.28`), so `ceil` yields 8,
while the claimed exact formula `min(L-1, ceil(p/100·(L-1)))` yields 7.
-/
theorem claim_C6_counterexample :
    glyph_index 28 26 = 8 ∧ glyph_index_spec 28 26 = 7 ∧
    glyph_index 28 26 ≠ glyph_index_spec 28 26 := by
  have h1 : glyph_index 28 26 = 8 := by decide
  have h2 : glyph_index_spec 28 26 = 7 := by
    rw [glyph_index_spec_eq 28 26 (by norm_num)]
    decide
  refine ⟨h1, h2, ?_⟩
  rw [h1, h2]
  decide

set_option maxRecDepth 100000 in
set_option maxHeartbeats 4000000 in
/--
Claim C6 (amended): for a known percentage `p` and a glyph ramp of length
`L ≥ 1`, the formatter's glyph is the one at index
`min (L-1) ⌈y⌉` where `y` is the IEEE-754 double-precision evaluation of
`p/100·(L-1)`; for the default ramp length `L = 9` this coincides with the
spec's exact formula `min (L-1) ⌈p/100·(L-1)⌉` for every parseable
percentage `p ≤ 999` (the volume regex captures `\d{1,3}`), though not for
all ramp lengths (see the counterexample at `p = 28`, `L = 26`).
-/
theorem claim_C6 (p : Nat) (blocks : List Char)
    (format format_muted color_muted : String) (h : 1 ≤ blocks.length) :
    (volume_status blocks format format_muted color_muted (some p) (some false)).icon
      = some (blocks.getD (glyph_index p blocks.length) ' ')
    ∧ (p ≤ 999 → blocks.length = 9 →
        glyph_index p blocks.length = glyph_index_spec p blocks.length) := by
  refine ⟨rfl, fun hp h9 => ?_⟩
  have key : ∀ q, q < 1000 →
      glyph_index q 9 = min (9 - 1) ((q * (9 - 1) + 99) / 100) := by decide
  rw [h9, glyph_index_spec_eq p 9 (by norm_num)]
  exact key p (by omega)

/-- Witness for amended C6 at the spec's example: the default-length ramp
(`L = 9`) with `p = 95` selects index 8, the last glyph, agreeing with the
exact formula. -/
theorem claim_C6_witness :
    1 ≤ (['a', 'b', 'c', 'd', 'e', 'f', 'g', 'h', 'i'] : List Char).length ∧
    (volume_status ['a', 'b', 'c', 'd', 'e', 'f', 'g', 'h', 'i'] "x" "y" "z"
        (some 95) (some false)).icon = some 'i' ∧
    glyph_index 95 9 = glyph_index_spec 95 9 := by
  refine ⟨by decide, ?_, ?_⟩
  · have h := (claim_C6 95 ['a', 'b', 'c', 'd', 'e', 'f', 'g', 'h', 'i'] "x" "y" "z"
      (by decide)).1
    rw [h]
    decide
  · exact (claim_C6 95 ['a', 'b', 'c', 'd', 'e', 'f', 'g', 'h', 'i'] "x" "y" "z"
      (by decide)).2 (by decide) (by decide)

/--
Claim C7: a scroll in edit mode whose stored sink name occurs nowhere in
the enumerated sink list is a silent no-op — the `ValueError` from
`__get_sink_index` is caught, no selection update and no swap happen.
-/
theorem claim_C7 (fuel : Nat) (sink_list : List Sink) (sink_name : String)
    (delta : Int) (h : ∀ s ∈ sink_list, s.name ≠ sink_name) :
    on_click_scroll fuel sink_list sink_name delta = .noop := by
  unfold on_click_scroll
  rw [get_sink_index_eq_none sink_list sink_name h]

/-- Witness for C7: stored name `B` absent from the one-sink list `[A]`. -/
theorem claim_C7_witness :
    (∀ s ∈ ([⟨"A", "RUNNING"⟩] : List Sink), s.name ≠ "B") ∧
    on_click_scroll 3 [⟨"A", "RUNNING"⟩] "B" 1 = .noop :=
  ⟨by decide, claim_C7 3 [⟨"A", "RUNNING"⟩] "B" 1 (by decide)⟩

/--
Claim C8: backend selection returns the first available candidate from the
ordered candidate list, honors a supplied override, and produces a
configuration error exactly when the override is unsupported, the override
is not installed, or no candidate is available at all.
-/
theorem claim_C8 (avail : String → Bool) (command : Option String) :
    ((∃ msg, post_config_hook avail command = .configError msg) ↔
      ((∃ cmd, command = some cmd ∧
          (cmd ∉ supported_commands ∨ avail cmd = false)) ∨
        (command = none ∧ (candidate_commands avail).find? avail = none))) ∧
    (∀ cmd, command = some cmd → cmd ∈ supported_commands → avail cmd = true →
      post_config_hook avail command = .ok cmd) ∧
    (∀ cmd, command = none → (candidate_commands avail).find? avail = some cmd →
      post_config_hook avail command = .ok cmd) := by
  refine ⟨?_, ?_, ?_⟩
  · cases command with
    | none =>
      cases hfind : (candidate_commands avail).find? avail with
      | none => simp [post_config_hook, hfind]
      | some c => simp [post_config_hook, hfind]
    | some cmd =>
      by_cases hs : cmd ∈ supported_commands
      · cases ha : avail cmd with
        | false => simp [post_config_hook, hs, ha]
        | true => simp [post_config_hook, hs, ha]
      · simp [post_config_hook, hs]
  · intro cmd hc hs ha
    subst hc
    simp [post_config_hook, hs, ha]
  · intro cmd hc hfind
    subst hc
    simp [post_config_hook, hfind]

/-- Witness for C8: with `pulseaudio` and `pactl` installed but `pamixer`
missing and no override, the first available candidate `pactl` is chosen. -/
theorem claim_C8_witness :
    post_config_hook (fun s => s == "pulseaudio" || s == "pactl") none
      = .ok "pactl" :=
  (claim_C8 (fun s => s == "pulseaudio" || s == "pactl") none).2.2 "pactl" rfl
    (by decide)

/--
Claim C9 counterexample: with stored selection `A` and current default
device `B`, the primary click leaving edit mode clears the active flag but
OVERWRITES the stored selection with `B` — it is not retained unchanged as
the claim states.
-/
theorem claim_C9_counterexample :
    (on_click_left (some "B") ⟨true, some "A"⟩).edit_mode = false ∧
    (on_click_left (some "B") ⟨true, some "A"⟩).sink_name ≠ some "A" := by
  decide

/--
Claim C9 (amended): on the primary-click transition from EDIT to NORMAL the
active flag is cleared, and the stored selection is overwritten with the
freshly queried default device name (it is never erased to nothing by the
transition itself, but it is not necessarily retained unchanged).
-/
theorem claim_C9 (default_device : Option String) (s : EditModeState)
    (h : s.edit_mode = true) :
    (on_click_left default_device s).edit_mode = false ∧
    (on_click_left default_device s).sink_name = default_device := by
  unfold on_click_left
  simp [h]

/-- Witness for amended C9 at a concrete state in edit mode. -/
theorem claim_C9_witness :
    (⟨true, some "A"⟩ : EditModeState).edit_mode = true ∧
    ((on_click_left (some "B") ⟨true, some "A"⟩).edit_mode = false ∧
      (on_click_left (some "B") ⟨true, some "A"⟩).sink_name = some "B") :=
  ⟨rfl, claim_C9 (some "B") ⟨true, some "A"⟩ rfl⟩

/--
Claim C10: when `get_volume` reports an unknown percentage (pattern match
failed), `volume_up` raises (`int(None)` is a `TypeError`) instead of
degrading to a no-op or issuing any volume command.
-/
theorem claim_C10 (delta maxVolume : Int) :
    volume_up none delta maxVolume = .raised ∧
    ∀ change, volume_up none delta maxVolume ≠ .cmd change :=
  ⟨rfl, fun _ h => VolumeUpResult.noConfusion h⟩

end Mixer
